import Mathlib

/-!
Verification of the JJY timecode encoder and pulse scheduler of the
pico_jjy_tx repository.  The Python sources are shallowly embedded:
the calendar-time tuple becomes a structure of natural numbers, the
list-building helper functions become Lean list functions, and the
timed transmission loop becomes a trace of explicit events.
-/

set_option maxRecDepth 10000

namespace PicoJjy

/-- Embedding of LocalTime.TimeTuple: the eight fields of the MicroPython
time tuple, as natural numbers. -/
structure TimeTuple where
  year : Nat
  month : Nat
  mday : Nat
  hour : Nat
  minute : Nat
  second : Nat
  weekday : Nat
  yearday : Nat
  deriving DecidableEq

/-- Helper marker() of Jjy.run in pico_jjy_tx.py: a marker symbol is the value 2. -/
def marker : List Nat := [2]

/-- Helper bcd() of Jjy.run in pico_jjy_tx.py: the digit value mod 10, emitted
most-significant bit first across numDigits bits. -/
def bcd (value numDigits : Nat) : List Nat :=
  (List.range numDigits).reverse.map (fun bitPos => ((value % 10) >>> bitPos) &&& 1)

/-- Helper bin() of Jjy.run in pico_jjy_tx.py: count copies of the low bit of value. -/
def bin (value count : Nat) : List Nat :=
  List.replicate count (value &&& 1)

/-- Embedding of genTimecode in pico_jjy_tx.py (lines 149-209): builds the
60-symbol vector, with the parity bits computed from slices of the common
prefix, and the tail chosen by whether the minute is 15 or 45. -/
def genTimecode (t : TimeTuple) : List Nat :=
  let vector : List Nat :=
    marker ++ bcd (t.minute / 10) 3 ++ bin 0 1 ++ bcd t.minute 4 ++ marker
    ++ bin 0 2 ++ bcd (t.hour / 10) 2 ++ bin 0 1 ++ bcd t.hour 4 ++ marker
    ++ bin 0 2 ++ bcd (t.yearday / 100) 2 ++ bin 0 1 ++ bcd (t.yearday / 10) 4 ++ marker
  let pa1 := ((vector.drop 12).take 2 ++ (vector.drop 15).take 4).sum
  let pa2 := ((vector.drop 1).take 3 ++ (vector.drop 5).take 4).sum
  if ¬(t.minute = 15 ∨ t.minute = 45) then
    vector ++ bcd t.yearday 4 ++ bin 0 2 ++ bin pa1 1 ++ bin pa2 1 ++ bin 0 1 ++ marker
    ++ bin 0 1 ++ bcd (t.year / 10) 4 ++ bcd t.year 4 ++ marker
    ++ bcd ((t.weekday + 1) % 7) 3 ++ bin 0 1 ++ bin 0 1 ++ bin 0 4 ++ marker
  else
    vector ++ bcd t.yearday 4 ++ bin 0 2 ++ bin pa1 1 ++ bin pa2 1 ++ bin 0 1 ++ marker
    ++ bin 0 9 ++ marker
    ++ bin 0 6 ++ bin 0 3 ++ marker

/-- The hour BCD bits (frame positions 12-13 and 15-18). -/
def hourBits (t : TimeTuple) : List Nat := bcd (t.hour / 10) 2 ++ bcd t.hour 4

/-- The minute BCD bits (frame positions 1-3 and 5-8). -/
def minuteBits (t : TimeTuple) : List Nat := bcd (t.minute / 10) 3 ++ bcd t.minute 4

/-- Bit i of v, used to state the MSB-first BCD layout. -/
def bit (v i : Nat) : Nat := (v >>> i) &&& 1

/-- The two frame layouts of the JJY protocol. -/
inductive FrameVariant
  | standard : FrameVariant
  | callSign : FrameVariant
  deriving DecidableEq

/-- The variant selection condition of genTimecode (pico_jjy_tx.py line 195)
and of Jjy.run in pico_ntp2jjy.py (line 160): the call-sign layout is used
exactly when the minute is 15 or 45. -/
def frameVariant (t : TimeTuple) : FrameVariant :=
  if ¬(t.minute = 15 ∨ t.minute = 45) then FrameVariant.standard else FrameVariant.callSign

/-- Embedding of Jjy.__addMarker of pico_ntp2jjy.py: append the marker value 2. -/
def addMarker (vec : List Nat) : List Nat := vec ++ [2]

/-- Embedding of Jjy.__addBcd of pico_ntp2jjy.py: append the BCD bits of
value mod 10, most-significant first, and return the new vector together
with the accumulated bit-sum parity. -/
def addBcd (vec : List Nat) (value numDigits : Nat) : List Nat × Nat :=
  (List.range numDigits).reverse.foldl
    (fun acc bitPos =>
      let b := ((value % 10) >>> bitPos) &&& 1
      (acc.1 ++ [b], acc.2 + b))
    (vec, 0)

/-- Embedding of Jjy.__addBin of pico_ntp2jjy.py: append count copies of the
low bit of value. -/
def addBin (vec : List Nat) (value count : Nat) : List Nat :=
  vec ++ List.replicate count (value &&& 1)

/-- Embedding of the stateful Jjy.__genTimecode of pico_ntp2jjy.py
(lines 123-199), with the instance vector threaded explicitly. -/
def genTimecodeNtp (t : TimeTuple) : List Nat :=
  let vec : List Nat := []
  let isTimecode1 : Bool := !(t.minute == 15 || t.minute == 45)
  let vec := addMarker vec
  let (vec, pa2) := addBcd vec (t.minute / 10) 3
  let vec := addBin vec 0 1
  let (vec, p2b) := addBcd vec t.minute 4
  let pa2 := pa2 + p2b
  let vec := addMarker vec
  let vec := addBin vec 0 2
  let (vec, pa1) := addBcd vec (t.hour / 10) 2
  let vec := addBin vec 0 1
  let (vec, p1b) := addBcd vec t.hour 4
  let pa1 := pa1 + p1b
  let vec := addMarker vec
  let vec := addBin vec 0 2
  let (vec, _) := addBcd vec (t.yearday / 100) 2
  let vec := addBin vec 0 1
  let (vec, _) := addBcd vec (t.yearday / 10) 4
  let vec := addMarker vec
  let (vec, _) := addBcd vec t.yearday 4
  let vec := addBin vec 0 2
  let vec := addBin vec pa1 1
  let vec := addBin vec pa2 1
  if isTimecode1 then
    let vec := addBin vec 0 1
    let vec := addMarker vec
    let vec := addBin vec 0 1
    let (vec, _) := addBcd vec (t.year / 10) 4
    let (vec, _) := addBcd vec t.year 4
    let vec := addMarker vec
    let (vec, _) := addBcd vec ((t.weekday + 1) % 7) 3
    let vec := addBin vec 0 1
    let vec := addBin vec 0 1
    let vec := addBin vec 0 4
    addMarker vec
  else
    let vec := addBin vec 0 1
    let vec := addMarker vec
    let vec := addBin vec 0 9
    let vec := addMarker vec
    let vec := addBin vec 0 6
    let vec := addBin vec 0 3
    addMarker vec

/-- Embedding of Jjy.__sendBcd of main.py: the pulse values sent for one BCD
field (value mod 10, most-significant bit first) together with the returned
parity sum. -/
def sendBcd (value numDigits : Nat) : List Nat × Nat :=
  (List.range numDigits).reverse.foldl
    (fun acc bitPos =>
      let b := ((value % 10) >>> bitPos) &&& 1
      (acc.1 ++ [b], acc.2 + b))
    ([], 0)

/-- The sequence of symbol values Jjy.__sendTimecode1 of main.py
(lines 99-147) passes to __sendPulse, in call order: __sendMarker sends 2,
__send0(n) sends n zeros, and the parity pulses send pa mod 2. -/
def sendTimecode1 (t : TimeTuple) : List Nat :=
  let (m1, pa2a) := sendBcd (t.minute / 10) 3
  let (m2, pa2b) := sendBcd t.minute 4
  let pa2 := pa2a + pa2b
  let (h1, pa1a) := sendBcd (t.hour / 10) 2
  let (h2, pa1b) := sendBcd t.hour 4
  let pa1 := pa1a + pa1b
  [2] ++ m1 ++ [0] ++ m2 ++ [2]
  ++ [0, 0] ++ h1 ++ [0] ++ h2 ++ [2]
  ++ [0, 0] ++ (sendBcd (t.yearday / 100) 2).1 ++ [0] ++ (sendBcd (t.yearday / 10) 4).1 ++ [2]
  ++ (sendBcd t.yearday 4).1 ++ [0, 0] ++ [pa1 % 2] ++ [pa2 % 2] ++ [0] ++ [2]
  ++ [0] ++ (sendBcd (t.year / 10) 4).1 ++ (sendBcd t.year 4).1 ++ [2]
  ++ (sendBcd ((t.weekday + 1) % 7) 3).1 ++ [0] ++ [0] ++ [0, 0, 0, 0] ++ [2]

/-- The sequence of symbol values Jjy.__sendTimecode2 of main.py
(lines 148-187) passes to __sendPulse, in call order. -/
def sendTimecode2 (t : TimeTuple) : List Nat :=
  let (m1, pa2a) := sendBcd (t.minute / 10) 3
  let (m2, pa2b) := sendBcd t.minute 4
  let pa2 := pa2a + pa2b
  let (h1, pa1a) := sendBcd (t.hour / 10) 2
  let (h2, pa1b) := sendBcd t.hour 4
  let pa1 := pa1a + pa1b
  [2] ++ m1 ++ [0] ++ m2 ++ [2]
  ++ [0, 0] ++ h1 ++ [0] ++ h2 ++ [2]
  ++ [0, 0] ++ (sendBcd (t.yearday / 100) 2).1 ++ [0] ++ (sendBcd (t.yearday / 10) 4).1 ++ [2]
  ++ (sendBcd t.yearday 4).1 ++ [0, 0] ++ [pa1 % 2] ++ [pa2 % 2] ++ [0] ++ [2]
  ++ [0, 0, 0, 0, 0, 0, 0, 0, 0] ++ [2]
  ++ [0, 0, 0, 0, 0, 0] ++ [0, 0, 0] ++ [2]

/-- Observable actions of the transmission loop: the second-edge alignment
wait, the control-line writes, and the timed hold. -/
inductive Event
  | align : Event
  | ctrl : Bool → Event
  | sleepMs : Nat → Event
  deriving DecidableEq

/-- The hold duration chosen by sendTimecode in pico_jjy_tx.py
(lines 214-219), in milliseconds: 800 for a 0 bit, 500 for a 1 bit and
200 for everything else (the marker value 2). -/
def pulseWidth (value : Nat) : Nat :=
  if value = 0 then 800 else if value = 1 then 500 else 200

/-- Embedding of sendTimecode in pico_jjy_tx.py (lines 210-221): for each
symbol value, align to the second edge, raise the control line, hold for
the symbol's pulse width, and lower the line. -/
def sendTimecode : List Nat → List Event
  | [] => []
  | value :: rest =>
      Event.align :: Event.ctrl true :: Event.sleepMs (pulseWidth value) :: Event.ctrl false
        :: sendTimecode rest

/-- The symbol values one iteration of Jjy.run in pico_jjy_tx.py
(line 239) hands to sendTimecode: the frame for t with the first t.second
entries skipped. -/
def runIterationSymbols (t : TimeTuple) : List Nat :=
  (genTimecode t).drop t.second

/-- Embedding of the wake-up computation of Jjy.__sendPulse in main.py
(lines 204-205): from the current tick count, sleep until the next multiple
of 1000 ms past millisOffset. -/
def wakeTarget (offset now : Nat) : Nat :=
  now + (1000 - (now - offset) % 1000)

/-- The successive wake-up instants of a run of __sendPulse calls: es lists,
for each symbol, the time spent between its wake-up and the next symbol's
tick read (hold plus execution jitter). -/
def wakeSchedule (offset : Nat) : Nat → List Nat → List Nat
  | _, [] => []
  | now, e :: es =>
      let w := wakeTarget offset now
      w :: wakeSchedule offset (w + e) es

/-- Outcome of the one-shot NTP fetch in LocalTime.__setNtpTime
(pico_jjy_tx.py lines 85-95): the fetch either succeeds or raises OSError
with an errno. -/
inductive NtpResult
  | ok : NtpResult
  | osError : Nat → NtpResult
  deriving DecidableEq

/-- What the program does after the fetch: delay a fixed number of seconds
and reset the device, or fall through to transmission, with the flag
recording whether the clock was actually corrected. -/
inductive NtpOutcome
  | resetAfterDelay : Nat → NtpOutcome
  | proceed : Bool → NtpOutcome
  deriving DecidableEq

/-- Embedding of the error handling of LocalTime.__setNtpTime
(pico_jjy_tx.py lines 85-95): only OSError errno 110 (ETIMEDOUT) leads to
the 5-second delay and machine.reset(); any other OSError is caught by the
same except clause, the errno test fails, and the function returns the
uncorrected local time. -/
def setNtpTime : NtpResult → NtpOutcome
  | NtpResult.ok => NtpOutcome.proceed true
  | NtpResult.osError errno =>
      if errno = 110 then NtpOutcome.resetAfterDelay 5 else NtpOutcome.proceed false

/-- The concrete scenario time of the spec: 2023-01-01 Sunday 03:04:00,
day-of-year 1. -/
def t0 : TimeTuple := ⟨2023, 1, 1, 3, 4, 0, 6, 1⟩

/-- A call-sign-minute variant of the scenario time (minute 15). -/
def t15 : TimeTuple := ⟨2023, 1, 1, 3, 15, 0, 6, 1⟩

/-- A minute-38 time, for the PA2 parity scenario. -/
def t38 : TimeTuple := ⟨2023, 1, 1, 3, 38, 0, 6, 1⟩

/-- The scenario time at second 37, for the mid-minute resume scenario. -/
def t37s : TimeTuple := ⟨2023, 1, 1, 3, 4, 37, 6, 1⟩

/-- A sample epoch-to-calendar conversion whose time-of-day fields follow
the civil-time rule; used to instantiate the lead-second theorem. -/
def localtimeModel (u : Nat) : TimeTuple :=
  ⟨2023, 1, 1, u / 3600 % 24, u / 60 % 60, u % 60, 5, 1⟩

theorem bcd2 (v : Nat) : bcd v 2 = [((v % 10) >>> 1) &&& 1, ((v % 10) >>> 0) &&& 1] := rfl

theorem bcd3 (v : Nat) :
    bcd v 3 = [((v % 10) >>> 2) &&& 1, ((v % 10) >>> 1) &&& 1, ((v % 10) >>> 0) &&& 1] := rfl

theorem bcd4 (v : Nat) :
    bcd v 4 = [((v % 10) >>> 3) &&& 1, ((v % 10) >>> 2) &&& 1,
      ((v % 10) >>> 1) &&& 1, ((v % 10) >>> 0) &&& 1] := rfl

theorem bin1 (v : Nat) : bin v 1 = [v &&& 1] := rfl

theorem bin2 (v : Nat) : bin v 2 = [v &&& 1, v &&& 1] := rfl

theorem bin3 (v : Nat) : bin v 3 = [v &&& 1, v &&& 1, v &&& 1] := rfl

theorem bin4 (v : Nat) : bin v 4 = [v &&& 1, v &&& 1, v &&& 1, v &&& 1] := rfl

theorem bin6 (v : Nat) :
    bin v 6 = [v &&& 1, v &&& 1, v &&& 1, v &&& 1, v &&& 1, v &&& 1] := rfl

theorem bin9 (v : Nat) :
    bin v 9 = [v &&& 1, v &&& 1, v &&& 1, v &&& 1, v &&& 1, v &&& 1, v &&& 1, v &&& 1, v &&& 1] :=
  rfl

theorem genTimecode_std (t : TimeTuple) (h : ¬(t.minute = 15 ∨ t.minute = 45)) :
    genTimecode t =
      marker ++ bcd (t.minute / 10) 3 ++ bin 0 1 ++ bcd t.minute 4 ++ marker
      ++ bin 0 2 ++ bcd (t.hour / 10) 2 ++ bin 0 1 ++ bcd t.hour 4 ++ marker
      ++ bin 0 2 ++ bcd (t.yearday / 100) 2 ++ bin 0 1 ++ bcd (t.yearday / 10) 4 ++ marker
      ++ bcd t.yearday 4 ++ bin 0 2
      ++ [(hourBits t).sum &&& 1] ++ [(minuteBits t).sum &&& 1] ++ bin 0 1 ++ marker
      ++ bin 0 1 ++ bcd (t.year / 10) 4 ++ bcd t.year 4 ++ marker
      ++ bcd ((t.weekday + 1) % 7) 3 ++ bin 0 1 ++ bin 0 1 ++ bin 0 4 ++ marker := by
  simp only [genTimecode]
  rw [if_pos h]
  simp [marker, bcd2, bcd3, bcd4, bin1, bin2, bin4, hourBits, minuteBits]

theorem genTimecode_cs (t : TimeTuple) (h : t.minute = 15 ∨ t.minute = 45) :
    genTimecode t =
      marker ++ bcd (t.minute / 10) 3 ++ bin 0 1 ++ bcd t.minute 4 ++ marker
      ++ bin 0 2 ++ bcd (t.hour / 10) 2 ++ bin 0 1 ++ bcd t.hour 4 ++ marker
      ++ bin 0 2 ++ bcd (t.yearday / 100) 2 ++ bin 0 1 ++ bcd (t.yearday / 10) 4 ++ marker
      ++ bcd t.yearday 4 ++ bin 0 2
      ++ [(hourBits t).sum &&& 1] ++ [(minuteBits t).sum &&& 1] ++ bin 0 1 ++ marker
      ++ bin 0 9 ++ marker
      ++ bin 0 6 ++ bin 0 3 ++ marker := by
  simp only [genTimecode]
  rw [if_neg (not_not_intro h)]
  simp [marker, bcd2, bcd3, bcd4, bin1, bin2, bin4, hourBits, minuteBits]

theorem genTimecode_length (t : TimeTuple) : (genTimecode t).length = 60 := by
  by_cases h : t.minute = 15 ∨ t.minute = 45
  · rw [genTimecode_cs t h]
    simp [marker, bcd2, bcd3, bcd4, bin1, bin2, bin3, bin4, bin6, bin9]
  · rw [genTimecode_std t h]
    simp [marker, bcd2, bcd3, bcd4, bin1, bin2, bin3, bin4, bin6, bin9]

/-- C2: encode always yields exactly 60 symbols, and the symbols at
positions 0, 9, 19, 29, 39, 49 and 59 are the marker, in both the
Standard and the CallSign variant. -/
theorem genTimecode_frame_markers (t : TimeTuple) :
    (genTimecode t).length = 60
    ∧ (genTimecode t).getD 0 0 = 2
    ∧ (genTimecode t).getD 9 0 = 2
    ∧ (genTimecode t).getD 19 0 = 2
    ∧ (genTimecode t).getD 29 0 = 2
    ∧ (genTimecode t).getD 39 0 = 2
    ∧ (genTimecode t).getD 49 0 = 2
    ∧ (genTimecode t).getD 59 0 = 2 := by
  refine ⟨genTimecode_length t, ?_⟩
  by_cases h : t.minute = 15 ∨ t.minute = 45
  · rw [genTimecode_cs t h]
    simp [marker, bcd2, bcd3, bcd4, bin1, bin2, bin3, bin4, bin6, bin9]
  · rw [genTimecode_std t h]
    simp [marker, bcd2, bcd3, bcd4, bin1, bin2, bin3, bin4, bin6, bin9]

/-- C1: the fixed bit layout of the frame.  Positions 1-3 and 5-8 carry the
minute tens and ones BCD digits, 12-13 and 15-18 the hour digits, 22-23,
25-28 and 30-33 the year-day digits, each digit being the field input mod 10
emitted most-significant bit first, with the fixed zero positions 4, 10-11,
14, 20-21, 24 and 34-35.  In the Standard variant, 41-44 and 45-48 carry the
year tens and ones digits and 50-52 the weekday code (weekday+1) mod 7, with
38, 40, 53, 54 and 55-58 zero; in the CallSign variant 38, 40-48, 50-55 and
56-58 are all zero. -/
theorem genTimecode_layout (t : TimeTuple) :
    ((genTimecode t).getD 1 0 = bit (t.minute / 10 % 10) 2
    ∧ (genTimecode t).getD 2 0 = bit (t.minute / 10 % 10) 1
    ∧ (genTimecode t).getD 3 0 = bit (t.minute / 10 % 10) 0
    ∧ (genTimecode t).getD 4 0 = 0
    ∧ (genTimecode t).getD 5 0 = bit (t.minute % 10) 3
    ∧ (genTimecode t).getD 6 0 = bit (t.minute % 10) 2
    ∧ (genTimecode t).getD 7 0 = bit (t.minute % 10) 1
    ∧ (genTimecode t).getD 8 0 = bit (t.minute % 10) 0
    ∧ (genTimecode t).getD 10 0 = 0
    ∧ (genTimecode t).getD 11 0 = 0
    ∧ (genTimecode t).getD 12 0 = bit (t.hour / 10 % 10) 1
    ∧ (genTimecode t).getD 13 0 = bit (t.hour / 10 % 10) 0
    ∧ (genTimecode t).getD 14 0 = 0
    ∧ (genTimecode t).getD 15 0 = bit (t.hour % 10) 3
    ∧ (genTimecode t).getD 16 0 = bit (t.hour % 10) 2
    ∧ (genTimecode t).getD 17 0 = bit (t.hour % 10) 1
    ∧ (genTimecode t).getD 18 0 = bit (t.hour % 10) 0
    ∧ (genTimecode t).getD 20 0 = 0
    ∧ (genTimecode t).getD 21 0 = 0
    ∧ (genTimecode t).getD 22 0 = bit (t.yearday / 100 % 10) 1
    ∧ (genTimecode t).getD 23 0 = bit (t.yearday / 100 % 10) 0
    ∧ (genTimecode t).getD 24 0 = 0
    ∧ (genTimecode t).getD 25 0 = bit (t.yearday / 10 % 10) 3
    ∧ (genTimecode t).getD 26 0 = bit (t.yearday / 10 % 10) 2
    ∧ (genTimecode t).getD 27 0 = bit (t.yearday / 10 % 10) 1
    ∧ (genTimecode t).getD 28 0 = bit (t.yearday / 10 % 10) 0
    ∧ (genTimecode t).getD 30 0 = bit (t.yearday % 10) 3
    ∧ (genTimecode t).getD 31 0 = bit (t.yearday % 10) 2
    ∧ (genTimecode t).getD 32 0 = bit (t.yearday % 10) 1
    ∧ (genTimecode t).getD 33 0 = bit (t.yearday % 10) 0
    ∧ (genTimecode t).getD 34 0 = 0
    ∧ (genTimecode t).getD 35 0 = 0)
    ∧ (¬(t.minute = 15 ∨ t.minute = 45) →
      (genTimecode t).getD 38 0 = 0
      ∧ (genTimecode t).getD 40 0 = 0
      ∧ (genTimecode t).getD 41 0 = bit (t.year / 10 % 10) 3
      ∧ (genTimecode t).getD 42 0 = bit (t.year / 10 % 10) 2
      ∧ (genTimecode t).getD 43 0 = bit (t.year / 10 % 10) 1
      ∧ (genTimecode t).getD 44 0 = bit (t.year / 10 % 10) 0
      ∧ (genTimecode t).getD 45 0 = bit (t.year % 10) 3
      ∧ (genTimecode t).getD 46 0 = bit (t.year % 10) 2
      ∧ (genTimecode t).getD 47 0 = bit (t.year % 10) 1
      ∧ (genTimecode t).getD 48 0 = bit (t.year % 10) 0
      ∧ (genTimecode t).getD 50 0 = bit ((t.weekday + 1) % 7) 2
      ∧ (genTimecode t).getD 51 0 = bit ((t.weekday + 1) % 7) 1
      ∧ (genTimecode t).getD 52 0 = bit ((t.weekday + 1) % 7) 0
      ∧ (genTimecode t).getD 53 0 = 0
      ∧ (genTimecode t).getD 54 0 = 0
      ∧ (genTimecode t).getD 55 0 = 0
      ∧ (genTimecode t).getD 56 0 = 0
      ∧ (genTimecode t).getD 57 0 = 0
      ∧ (genTimecode t).getD 58 0 = 0)
    ∧ ((t.minute = 15 ∨ t.minute = 45) →
      (genTimecode t).getD 38 0 = 0
      ∧ (genTimecode t).getD 40 0 = 0
      ∧ (genTimecode t).getD 41 0 = 0
      ∧ (genTimecode t).getD 42 0 = 0
      ∧ (genTimecode t).getD 43 0 = 0
      ∧ (genTimecode t).getD 44 0 = 0
      ∧ (genTimecode t).getD 45 0 = 0
      ∧ (genTimecode t).getD 46 0 = 0
      ∧ (genTimecode t).getD 47 0 = 0
      ∧ (genTimecode t).getD 48 0 = 0
      ∧ (genTimecode t).getD 50 0 = 0
      ∧ (genTimecode t).getD 51 0 = 0
      ∧ (genTimecode t).getD 52 0 = 0
      ∧ (genTimecode t).getD 53 0 = 0
      ∧ (genTimecode t).getD 54 0 = 0
      ∧ (genTimecode t).getD 55 0 = 0
      ∧ (genTimecode t).getD 56 0 = 0
      ∧ (genTimecode t).getD 57 0 = 0
      ∧ (genTimecode t).getD 58 0 = 0) := by
  refine ⟨?_, fun h => ?_, fun h => ?_⟩
  · by_cases h : t.minute = 15 ∨ t.minute = 45
    · rw [genTimecode_cs t h]
      simp [marker, bcd2, bcd3, bcd4, bin1, bin2, bin3, bin4, bin6, bin9, bit]
    · rw [genTimecode_std t h]
      simp [marker, bcd2, bcd3, bcd4, bin1, bin2, bin3, bin4, bin6, bin9, bit]
  · rw [genTimecode_std t h]
    have hw : (t.weekday + 1) % 7 % 10 = (t.weekday + 1) % 7 := by omega
    simp [marker, bcd2, bcd3, bcd4, bin1, bin2, bin3, bin4, bin6, bin9, bit, hw]
  · rw [genTimecode_cs t h]
    simp [marker, bcd2, bcd3, bcd4, bin1, bin2, bin3, bin4, bin6, bin9, bit]

/-- C1 witness: the layout evaluated at a Standard-variant input and at a
CallSign-variant input. -/
theorem genTimecode_layout_witness :
    (¬(t0.minute = 15 ∨ t0.minute = 45)
      ∧ (genTimecode t0).getD 41 0 = bit (t0.year / 10 % 10) 3)
    ∧ ((t15.minute = 15 ∨ t15.minute = 45) ∧ (genTimecode t15).getD 41 0 = 0) :=
  ⟨⟨by decide, ((genTimecode_layout t0).2.1 (by decide)).2.2.1⟩,
   ⟨by decide, ((genTimecode_layout t15).2.2 (by decide)).2.2.1⟩⟩

/-- C3: position 36 (PA1) is the sum mod 2 of the hour BCD bits at
positions 12-13 and 15-18, position 37 (PA2) is the sum mod 2 of the minute
BCD bits at positions 1-3 and 5-8, and for minute 38 the PA2 bit is 1. -/
theorem genTimecode_parity (t : TimeTuple) :
    ((genTimecode t).getD 36 0 =
      ((genTimecode t).getD 12 0 + (genTimecode t).getD 13 0 + (genTimecode t).getD 15 0
        + (genTimecode t).getD 16 0 + (genTimecode t).getD 17 0 + (genTimecode t).getD 18 0) % 2
    ∧ (genTimecode t).getD 37 0 =
      ((genTimecode t).getD 1 0 + (genTimecode t).getD 2 0 + (genTimecode t).getD 3 0
        + (genTimecode t).getD 5 0 + (genTimecode t).getD 6 0 + (genTimecode t).getD 7 0
        + (genTimecode t).getD 8 0) % 2)
    ∧ (t.minute = 38 → (genTimecode t).getD 37 0 = 1) := by
  constructor
  · by_cases h : t.minute = 15 ∨ t.minute = 45
    · rw [genTimecode_cs t h]
      constructor
      · simp [marker, bcd2, bcd3, bcd4, bin1, bin2, bin3, bin4, bin6, bin9,
          hourBits, minuteBits, Nat.shiftRight_eq_div_pow]
        omega
      · simp [marker, bcd2, bcd3, bcd4, bin1, bin2, bin3, bin4, bin6, bin9,
          hourBits, minuteBits, Nat.shiftRight_eq_div_pow]
        omega
    · rw [genTimecode_std t h]
      constructor
      · simp [marker, bcd2, bcd3, bcd4, bin1, bin2, bin3, bin4, bin6, bin9,
          hourBits, minuteBits, Nat.shiftRight_eq_div_pow]
        omega
      · simp [marker, bcd2, bcd3, bcd4, bin1, bin2, bin3, bin4, bin6, bin9,
          hourBits, minuteBits, Nat.shiftRight_eq_div_pow]
        omega
  · intro h38
    have h : ¬(t.minute = 15 ∨ t.minute = 45) := by omega
    rw [genTimecode_std t h]
    simp [marker, bcd2, bcd3, bcd4, bin1, bin2, bin3, bin4, bin6, bin9,
      hourBits, minuteBits, h38]

/-- C3 witness: at minute 38 the PA2 bit of the generated frame is 1. -/
theorem genTimecode_parity_witness :
    t38.minute = 38 ∧ (genTimecode t38).getD 37 0 = 1 :=
  ⟨rfl, (genTimecode_parity t38).2 rfl⟩

/-- C5 counterexample: at the spec's concrete scenario time (2023-01-01
Sunday 03:04:00, day-of-year 1) the PA1 bit at position 36 is not 1: the
hour bits 00 0011 contain two ones, so their sum mod 2 is 0. -/
theorem scenario_pa1_not_one : ¬((genTimecode t0).getD 36 0 = 1) := by decide

/-- C5 amended: the concrete scenario frame is Standard, with minute bits
000 and 0100, hour bits 00 and 0011, year-day bits 00, 0000 and 0001,
PA1 = 0, PA2 = 1, and weekday bits 000. -/
theorem scenario_frame :
    frameVariant t0 = FrameVariant.standard
    ∧ (genTimecode t0).getD 1 0 = 0 ∧ (genTimecode t0).getD 2 0 = 0
    ∧ (genTimecode t0).getD 3 0 = 0
    ∧ (genTimecode t0).getD 5 0 = 0 ∧ (genTimecode t0).getD 6 0 = 1
    ∧ (genTimecode t0).getD 7 0 = 0 ∧ (genTimecode t0).getD 8 0 = 0
    ∧ (genTimecode t0).getD 12 0 = 0 ∧ (genTimecode t0).getD 13 0 = 0
    ∧ (genTimecode t0).getD 15 0 = 0 ∧ (genTimecode t0).getD 16 0 = 0
    ∧ (genTimecode t0).getD 17 0 = 1 ∧ (genTimecode t0).getD 18 0 = 1
    ∧ (genTimecode t0).getD 22 0 = 0 ∧ (genTimecode t0).getD 23 0 = 0
    ∧ (genTimecode t0).getD 25 0 = 0 ∧ (genTimecode t0).getD 26 0 = 0
    ∧ (genTimecode t0).getD 27 0 = 0 ∧ (genTimecode t0).getD 28 0 = 0
    ∧ (genTimecode t0).getD 30 0 = 0 ∧ (genTimecode t0).getD 31 0 = 0
    ∧ (genTimecode t0).getD 32 0 = 0 ∧ (genTimecode t0).getD 33 0 = 1
    ∧ (genTimecode t0).getD 36 0 = 0
    ∧ (genTimecode t0).getD 37 0 = 1
    ∧ (genTimecode t0).getD 50 0 = 0 ∧ (genTimecode t0).getD 51 0 = 0
    ∧ (genTimecode t0).getD 52 0 = 0 := by decide

/-- C4: with any epoch-to-calendar conversion whose minute field follows the
civil-time rule (the platform localtime the TimeSource consumes), the frame
variant selected for the time about to be transmitted, now(1) at epoch
second s, is CallSign exactly when the minute of the minute-of-day about to
start is 15 or 45, and Standard otherwise. -/
theorem frameVariant_selection (conv : Nat → TimeTuple)
    (hconv : ∀ u, (conv u).minute = u / 60 % 60) (s : Nat) :
    (frameVariant (conv (s + 1)) = FrameVariant.callSign ↔
      ((s + 1) / 60 % 1440 % 60 = 15 ∨ (s + 1) / 60 % 1440 % 60 = 45))
    ∧ (frameVariant (conv (s + 1)) = FrameVariant.standard ↔
      ¬((s + 1) / 60 % 1440 % 60 = 15 ∨ (s + 1) / 60 % 1440 % 60 = 45)) := by
  have hmod : (s + 1) / 60 % 1440 % 60 = (s + 1) / 60 % 60 := by
    omega
  have key : frameVariant (conv (s + 1)) = FrameVariant.callSign ↔
      ((s + 1) / 60 % 60 = 15 ∨ (s + 1) / 60 % 60 = 45) := by
    unfold frameVariant
    rw [hconv (s + 1)]
    split
    · rename_i h
      simp [h]
    · rename_i h
      rw [not_not] at h
      simp [h]
  constructor
  · rw [hmod]
    exact key
  · rw [hmod]
    cases hfv : frameVariant (conv (s + 1)) <;> simp [hfv] at key ⊢ <;> tauto

/-- C4 witness: at epoch second 899 the next second starts minute 15 of the
day, and the CallSign variant is selected. -/
theorem frameVariant_selection_witness :
    frameVariant (localtimeModel (899 + 1)) = FrameVariant.callSign :=
  (frameVariant_selection localtimeModel (fun u => rfl) 899).1.2 (by decide)

/-- C6: one iteration of the transmission loop sends exactly the frame
symbols from index t.second to 59 in order, so the first transmitted symbol
is frame[t.second]; in particular at second 37 it is frame[37]. -/
theorem runIteration_resume (t : TimeTuple) (hs : t.second < 60) :
    (runIterationSymbols t).length = 60 - t.second
    ∧ (∀ i, i < 60 - t.second →
        (runIterationSymbols t).getD i 0 = (genTimecode t).getD (t.second + i) 0)
    ∧ (t.second = 37 → (runIterationSymbols t).getD 0 0 = (genTimecode t).getD 37 0) := by
  refine ⟨?_, fun i hi => ?_, fun h37 => ?_⟩
  · simp [runIterationSymbols, genTimecode_length]
  · simp [runIterationSymbols, List.getD_eq_getElem?_getD, List.getElem?_drop]
  · simp [runIterationSymbols, List.getD_eq_getElem?_getD, List.getElem?_drop, h37]

/-- C6 witness: at the scenario time with second 37 the first symbol of the
iteration is the frame symbol at index 37. -/
theorem runIteration_resume_witness :
    t37s.second < 60 ∧ (runIterationSymbols t37s).getD 0 0 = (genTimecode t37s).getD 37 0 :=
  ⟨by decide, (runIteration_resume t37s (by decide)).2.2 rfl⟩

theorem sendTimecode_length (vector : List Nat) :
    (sendTimecode vector).length = 4 * vector.length := by
  induction vector with
  | nil => rfl
  | cons a rest ih =>
      simp only [sendTimecode, List.length_cons, ih]
      omega

/-- C7: each transmitted symbol produces the event block align, raise,
hold, lower, where the hold duration depends only on the symbol kind:
200 ms for the marker, 500 ms for a one, 800 ms for a zero; the line is
lowered before the next symbol's block starts. -/
theorem sendTimecode_pulse (vector : List Nat) :
    (sendTimecode vector).length = 4 * vector.length
    ∧ pulseWidth 2 = 200 ∧ pulseWidth 1 = 500 ∧ pulseWidth 0 = 800
    ∧ ∀ i, i < vector.length →
      ((sendTimecode vector).drop (4 * i)).take 4
        = [Event.align, Event.ctrl true, Event.sleepMs (pulseWidth (vector.getD i 0)),
           Event.ctrl false] := by
  refine ⟨sendTimecode_length vector, rfl, rfl, rfl, ?_⟩
  induction vector with
  | nil =>
      intro i hi
      simp at hi
  | cons a rest ih =>
      intro i hi
      cases i with
      | zero => rfl
      | succ j =>
          have hst : sendTimecode (a :: rest)
              = Event.align :: Event.ctrl true :: Event.sleepMs (pulseWidth a)
                :: Event.ctrl false :: sendTimecode rest := rfl
          have h4 : 4 * (j + 1) = 4 * j + 1 + 1 + 1 + 1 := by ring
          rw [hst, h4]
          simp only [List.drop_succ_cons, List.getD_cons_succ]
          simp only [List.length_cons] at hi
          exact ih j (by omega)

/-- C7 witness: the second symbol of the vector marker, one, zero is held
for 500 ms between a raise and a lower of the control line. -/
theorem sendTimecode_pulse_witness :
    (1 : Nat) < [2, 1, 0].length
    ∧ ((sendTimecode [2, 1, 0]).drop (4 * 1)).take 4
      = [Event.align, Event.ctrl true, Event.sleepMs (pulseWidth ([2, 1, 0].getD 1 0)),
         Event.ctrl false] :=
  ⟨by decide, (sendTimecode_pulse [2, 1, 0]).2.2.2.2 1 (by decide)⟩

theorem wakeTarget_gt (offset now : Nat) : now < wakeTarget offset now := by
  unfold wakeTarget
  omega

theorem wakeTarget_mod (offset now : Nat) (h : offset ≤ now) :
    (wakeTarget offset now - offset) % 1000 = 0 := by
  unfold wakeTarget
  omega

theorem wakeTarget_step (offset w e : Nat) (hw : offset ≤ w)
    (hmod : (w - offset) % 1000 = 0) (he : e < 1000) :
    wakeTarget offset (w + e) = w + 1000 := by
  unfold wakeTarget
  omega

/-- C8: the wake-up instant of symbol i is the first wake-up plus exactly
i times 1000 ms, for any per-symbol processing time below one second: the
deadline is re-derived each second from the fixed origin offset, so jitter
never accumulates, for a run of any length. -/
theorem wakeSchedule_absolute :
    ∀ (es : List Nat) (offset start : Nat), offset ≤ start →
      (∀ e ∈ es, e < 1000) → ∀ i, i < es.length →
      (wakeSchedule offset start es).getD i 0 = wakeTarget offset start + 1000 * i := by
  intro es
  induction es with
  | nil =>
      intro offset start h he i hi
      simp at hi
  | cons e rest ih =>
      intro offset start h he i hi
      cases i with
      | zero => simp [wakeSchedule]
      | succ j =>
          have hw : offset ≤ wakeTarget offset start := by
            have := wakeTarget_gt offset start
            omega
          have hle : offset ≤ wakeTarget offset start + e := by omega
          have hj : j < rest.length := by
            simp only [List.length_cons] at hi
            omega
          have hrest : ∀ x ∈ rest, x < 1000 := fun x hx => he x (by simp [hx])
          calc (wakeSchedule offset start (e :: rest)).getD (j + 1) 0
              = (wakeSchedule offset (wakeTarget offset start + e) rest).getD j 0 := by
                simp [wakeSchedule]
            _ = wakeTarget offset (wakeTarget offset start + e) + 1000 * j :=
                ih offset _ hle hrest j hj
            _ = wakeTarget offset start + 1000 + 1000 * j := by
                rw [wakeTarget_step offset (wakeTarget offset start) e hw
                  (wakeTarget_mod offset start h) (he e (by simp))]
            _ = wakeTarget offset start + 1000 * (j + 1) := by ring

/-- C8 witness: with origin 0, start tick 250 and per-symbol busy times
800 and 900 ms, the second wake-up is the first wake-up plus 1000 ms. -/
theorem wakeSchedule_absolute_witness :
    (0 : Nat) ≤ 250 ∧ (∀ e ∈ [800, 900], e < 1000)
    ∧ (wakeSchedule 0 250 [800, 900]).getD 1 0 = wakeTarget 0 250 + 1000 * 1 :=
  ⟨by decide, by decide,
    wakeSchedule_absolute [800, 900] 0 250 (by decide) (by decide) 1 (by decide)⟩

/-- C9 counterexample: an OSError with errno 113 is caught, the errno test
fails, and the program proceeds to transmission with an uncorrected clock
instead of delaying and resetting. -/
theorem setNtpTime_silent_default :
    setNtpTime (NtpResult.osError 113) = NtpOutcome.proceed false
    ∧ setNtpTime (NtpResult.osError 113) ≠ NtpOutcome.resetAfterDelay 5 := by
  decide

/-- C9 amended: only a fetch failure with OSError errno 110 (ETIMEDOUT) is
surfaced as a 5-second delay followed by a device reset; a success proceeds
with the corrected clock, and a failure with any other errno is silently
swallowed and the program proceeds with an uncorrected clock. -/
theorem setNtpTime_behavior (errno : Nat) :
    setNtpTime NtpResult.ok = NtpOutcome.proceed true
    ∧ (errno = 110 → setNtpTime (NtpResult.osError errno) = NtpOutcome.resetAfterDelay 5)
    ∧ (errno ≠ 110 → setNtpTime (NtpResult.osError errno) = NtpOutcome.proceed false) := by
  refine ⟨rfl, fun h => ?_, fun h => ?_⟩ <;> simp [setNtpTime, h]

/-- C9 witness: the timeout errno resets, errno 113 proceeds uncorrected. -/
theorem setNtpTime_behavior_witness :
    setNtpTime (NtpResult.osError 110) = NtpOutcome.resetAfterDelay 5
    ∧ setNtpTime (NtpResult.osError 113) = NtpOutcome.proceed false :=
  ⟨(setNtpTime_behavior 110).2.1 rfl, (setNtpTime_behavior 113).2.2 (by decide)⟩

theorem foldBits (g : Nat → Nat) :
    ∀ (l : List Nat) (vec : List Nat) (p : Nat),
      l.foldl (fun acc bitPos => (acc.1 ++ [g bitPos], acc.2 + g bitPos)) (vec, p)
        = (vec ++ l.map g, p + (l.map g).sum) := by
  intro l
  induction l with
  | nil =>
      intro vec p
      simp
  | cons b rest ih =>
      intro vec p
      simp [ih, Nat.add_assoc]

theorem addBcd_eq (vec : List Nat) (value numDigits : Nat) :
    addBcd vec value numDigits = (vec ++ bcd value numDigits, (bcd value numDigits).sum) := by
  have h := foldBits (fun bitPos => ((value % 10) >>> bitPos) &&& 1)
    (List.range numDigits).reverse vec 0
  simpa [addBcd, bcd] using h

theorem sendBcd_eq (value numDigits : Nat) :
    sendBcd value numDigits = (bcd value numDigits, (bcd value numDigits).sum) := by
  have h := foldBits (fun bitPos => ((value % 10) >>> bitPos) &&& 1)
    (List.range numDigits).reverse [] 0
  simpa [sendBcd, bcd] using h

/-- C10: the three encoders agree on every calendar time: the stateful
frame builder of pico_ntp2jjy.py and the pulse sequences of main.py's two
senders produce exactly the vector of the pure genTimecode. -/
theorem encoders_agree (t : TimeTuple) :
    genTimecodeNtp t = genTimecode t
    ∧ (if t.minute = 15 ∨ t.minute = 45 then sendTimecode2 t else sendTimecode1 t)
      = genTimecode t := by
  by_cases h : t.minute = 15 ∨ t.minute = 45
  · have hb : (!(t.minute == 15 || t.minute == 45)) = false := by
      rcases h with h | h <;> simp [h]
    rw [if_pos h, genTimecode_cs t h]
    constructor
    · simp only [genTimecodeNtp, addBcd_eq, addMarker, addBin, hb, Bool.false_eq_true,
        if_false]
      simp [marker, bcd2, bcd3, bcd4, bin1, bin2, bin3, bin4, bin6, bin9,
        hourBits, minuteBits, List.sum_append, Nat.shiftRight_eq_div_pow,
        List.cons.injEq]
      omega
    · simp only [sendTimecode2, sendBcd_eq]
      simp [marker, bcd2, bcd3, bcd4, bin1, bin2, bin3, bin4, bin6, bin9,
        hourBits, minuteBits, List.sum_append, Nat.shiftRight_eq_div_pow,
        List.cons.injEq]
      omega
  · have hb : (!(t.minute == 15 || t.minute == 45)) = true := by
      simp
      omega
    rw [if_neg h, genTimecode_std t h]
    constructor
    · simp only [genTimecodeNtp, addBcd_eq, addMarker, addBin, hb, if_true]
      simp [marker, bcd2, bcd3, bcd4, bin1, bin2, bin3, bin4, bin6, bin9,
        hourBits, minuteBits, List.sum_append, Nat.shiftRight_eq_div_pow,
        List.cons.injEq]
      omega
    · simp only [sendTimecode1, sendBcd_eq]
      simp [marker, bcd2, bcd3, bcd4, bin1, bin2, bin3, bin4, bin6, bin9,
        hourBits, minuteBits, List.sum_append, Nat.shiftRight_eq_div_pow,
        List.cons.injEq]
      omega

end PicoJjy
